import Mathlib

/-!
Shallow embedding of `src/services/browser_captcha_personal.py`
(class `BrowserCaptchaService`) from the flow2api repository.

The Python code drives a real browser through async calls
(`tab.evaluate`, `browser.get`, sleeps).  We model the outside world
(browser and pages) by environment records whose fields give, for each
browser interaction the code performs, the value that interaction
yields; a value of type `Except Unit a` is `.ok v` when the awaited
call returns `v` and `.error ()` when it raises a Python exception.
JavaScript evaluation results that the code tests for truthiness are
modelled as `Option String` (`none` is JS `null`; the empty string is
falsy, like in Python).

Instance state is the record `SState`; each method is a function from
state and environment to (outcome, new state, observable effects),
where the effect records count the externally visible calls the claims
talk about (tab opens/closes, browser launches/stops, script
injections, readiness polls, legacy invocations).
-/

namespace Flow2Api

/-- Python truthiness of a JS evaluation result: `null` and `""` are falsy. -/
def truthyStr : Option String → Bool
  | none => false
  | some s => s != ""

/-- The instance attributes of `BrowserCaptchaService` that the modelled
methods read or write.  `hasBrowser` models `self.browser is not None`. -/
structure SState where
  _initialized : Bool
  hasBrowser : Bool
  resident_project_id : Option String
  resident_tab : Option Unit
  _running : Bool
  _recaptcha_ready : Bool
deriving DecidableEq, Repr

/-- Environment of `initialize` (the browser controller): the outcome of
reading `self.browser.stopped` and the outcome of `uc.start(...)`. -/
structure InitEnv where
  stoppedCheck : Except Unit Bool
  launch : Except Unit Unit

/-- The launch block of `initialize`: `self.browser = await uc.start(...)`
then `self._initialized = True`; a raise leaves both unchanged and
propagates (the `except` clause logs and re-raises).  The `Nat` counts
`uc.start` launch attempts. -/
def doLaunch (s : SState) (launch : Except Unit Unit) :
    Except Unit Unit × SState × Nat :=
  match launch with
  | .ok () => (.ok (), { s with hasBrowser := true, _initialized := true }, 1)
  | .error () => (.error (), s, 1)

/-- `initialize` from the source: if already marked live, health-check the
browser (`self.browser.stopped`); a live browser returns at once; a stopped
or unresponsive one clears `_initialized` and relaunches. -/
def initBrowser (st : SState) (env : InitEnv) : Except Unit Unit × SState × Nat :=
  if st._initialized && st.hasBrowser then
    match env.stoppedCheck with
    | .ok false => (.ok (), st, 0)
    | .ok true => doLaunch { st with _initialized := false } env.launch
    | .error () => doLaunch { st with _initialized := false } env.launch
  else
    doLaunch st env.launch

/-- Environment of `_wait_for_recaptcha`: `check i` is the result of the
i-th readiness evaluation on the page (`i = 0` is the initial check, the
loop re-evaluates at `i = 1, 2, ...`); `inj` is the outcome of evaluating
the script-injection snippet. -/
structure ProbeEnv where
  check : Nat → Except Unit Bool
  inj : Except Unit Unit

/-- Observable effects of one `_wait_for_recaptcha` run: how many times the
injection snippet was evaluated, and how many post-injection readiness
polls ran. -/
structure ProbeEff where
  injections : Nat
  polls : Nat
deriving DecidableEq, Repr

/-- The `for i in range(20)` poll loop of `_wait_for_recaptcha`: evaluate
readiness, return ready on first true, give up when the budget is spent.
An exception in an evaluation propagates. -/
def probeLoop (check : Nat → Except Unit Bool) (i fuel polls : Nat) :
    Except Unit Bool × Nat :=
  match fuel with
  | 0 => (.ok false, polls)
  | Nat.succ fuel =>
    match check i with
    | .error () => (.error (), polls + 1)
    | .ok true => (.ok true, polls + 1)
    | .ok false => probeLoop check (i + 1) fuel (polls + 1)

/-- `_wait_for_recaptcha` from the source: initial readiness check; if
already present return ready with no injection; otherwise evaluate the
injection snippet once, then poll up to 20 times. -/
def waitForRecaptcha (env : ProbeEnv) : Except Unit Bool × ProbeEff :=
  match env.check 0 with
  | .error () => (.error (), ⟨0, 0⟩)
  | .ok true => (.ok true, ⟨0, 0⟩)
  | .ok false =>
    match env.inj with
    | .error () => (.error (), ⟨1, 0⟩)
    | .ok () =>
      let r := probeLoop env.check 1 20 0
      (r.1, ⟨1, r.2⟩)

/-- Environment of `_execute_recaptcha_on_tab`: the outcome of injecting
the execute script, and the values of the token and error globals at each
poll iteration. -/
structure ExecEnv where
  inj : Except Unit Unit
  tokenAt : Nat → Except Unit (Option String)
  errorAt : Nat → Except Unit (Option String)

/-- The `for i in range(30)` poll loop of `_execute_recaptcha_on_tab`:
read the token global (break when truthy), then the error global (break
when truthy, keeping the current falsy token value); after the budget is
spent, return the last token value read (`none` before any read). -/
def execLoop (env : ExecEnv) (i fuel : Nat) (tok : Option String) :
    Except Unit (Option String) :=
  match fuel with
  | 0 => .ok tok
  | Nat.succ fuel =>
    match env.tokenAt i with
    | .error () => .error ()
    | .ok t =>
      if truthyStr t then .ok t
      else
        match env.errorAt i with
        | .error () => .error ()
        | .ok e => if truthyStr e then .ok t else execLoop env (i + 1) fuel t

/-- `_execute_recaptcha_on_tab` from the source: inject the execute
script (an exception propagates, the caller has no handler here), then
poll; the final best-effort `delete window...` cleanup swallows its own
errors and has no modelled effect. -/
def execOnTab (env : ExecEnv) : Except Unit (Option String) :=
  match env.inj with
  | .error () => .error ()
  | .ok () => execLoop env 0 30 none

/-- The legacy `document.readyState` wait loop (`for _ in range(10)`):
evaluate readiness, break on `"complete"`, otherwise sleep and retry;
falling out of the loop is not an error (best-effort wait). -/
def navLoop (stepAt : Nat → Except Unit String) (i fuel : Nat) : Except Unit Unit :=
  match fuel with
  | 0 => .ok ()
  | Nat.succ fuel =>
    match stepAt i with
    | .error () => .error ()
    | .ok s => if s == "complete" then .ok () else navLoop stepAt (i + 1) fuel

/-- Environment of `_get_token_legacy`: outcomes of the browser ensure
step, the `browser.get` tab open, the warm-up sleep, each readiness-state
evaluation, the readiness probe and the executor. -/
structure LegacyEnv where
  init : InitEnv
  openTab : Except Unit Unit
  warmup : Except Unit Unit
  navStep : Nat → Except Unit String
  probe : ProbeEnv
  exec : ExecEnv

/-- Observable effects of one `_get_token_legacy` run. -/
structure LegacyEff where
  launches : Nat
  tabOpens : Nat
  tabCloses : Nat
  browserStops : Nat
deriving DecidableEq, Repr

/-- The body of `_get_token_legacy` after the browser is ensured:
`try: open tab / warm up / wait readiness / probe / execute` with
`except Exception: return None` and `finally: close the tab if opened`.
`n` is the launch count of the ensure step.  The `finally` close runs on
every path on which the tab was opened, so `tabCloses` is 1 exactly when
`tabOpens` is 1; no path touches `browser.stop`. -/
def legacyAfterInit (st1 : SState) (n : Nat) (env : LegacyEnv) :
    Except Unit (Option String) × SState × LegacyEff :=
  match env.openTab with
  | .error () => (.ok none, st1, ⟨n, 0, 0, 0⟩)
  | .ok () =>
    let eff : LegacyEff := ⟨n, 1, 1, 0⟩
    match env.warmup with
    | .error () => (.ok none, st1, eff)
    | .ok () =>
      match navLoop env.navStep 0 10 with
      | .error () => (.ok none, st1, eff)
      | .ok () =>
        match (waitForRecaptcha env.probe).1 with
        | .error () => (.ok none, st1, eff)
        | .ok false => (.ok none, st1, eff)
        | .ok true =>
          match execOnTab env.exec with
          | .error () => (.ok none, st1, eff)
          | .ok tok =>
            if truthyStr tok then (.ok tok, st1, eff) else (.ok none, st1, eff)

/-- `_get_token_legacy` from the source: ensure the browser when
`not self._initialized or not self.browser` (a launch failure propagates,
it is outside the `try`), then run the guarded body. -/
def _get_token_legacy (st : SState) (env : LegacyEnv) :
    Except Unit (Option String) × SState × LegacyEff :=
  if st._initialized && st.hasBrowser then
    legacyAfterInit st 0 env
  else
    match initBrowser st env.init with
    | (.error (), st1, n) => (.error (), st1, ⟨n, 0, 0, 0⟩)
    | (.ok (), st1, n) => legacyAfterInit st1 n env

/-- Environment of `get_token`: the executor environment of the resident
tab and the legacy environment used on fallback. -/
structure TokenEnv where
  resExec : ExecEnv
  legacy : LegacyEnv

/-- Observable effects of one `get_token` run: executor invocations on
the resident tab, `_get_token_legacy` invocations, and the inner legacy
effects. -/
structure TokenEff where
  residentExecCalls : Nat
  legacyCalls : Nat
  legacyEff : LegacyEff
deriving DecidableEq, Repr

/-- The all-zero legacy effect record (legacy path not taken). -/
def zeroLegacyEff : LegacyEff := ⟨0, 0, 0, 0⟩

/-- `get_token` from the source: when resident mode is running and bound
to this `project_id` and the tab is ready and present, execute on the
resident tab and return the token when truthy; on a falsy result, and in
every other case, fall back to `_get_token_legacy`. -/
def get_token (st : SState) (env : TokenEnv) (project_id : String) :
    Except Unit (Option String) × SState × TokenEff :=
  let viaLegacy : Nat → Except Unit (Option String) × SState × TokenEff := fun r =>
    let out := _get_token_legacy st env.legacy
    (out.1, out.2.1, ⟨r, 1, out.2.2⟩)
  if st._running && st.resident_project_id == some project_id then
    if st._recaptcha_ready && st.resident_tab.isSome then
      match execOnTab env.resExec with
      | .error () => (.error (), st, ⟨1, 0, zeroLegacyEff⟩)
      | .ok tok =>
        if truthyStr tok then (.ok tok, st, ⟨1, 0, zeroLegacyEff⟩)
        else viaLegacy 1
    else viaLegacy 0
  else viaLegacy 0

/-- One attempt of the resident page-load wait loop: the readiness
evaluation yields a state string, raises `ConnectionRefusedError`
(the tab is then re-created), or raises some other exception. -/
inductive LoadStep where
  | readyState (s : String)
  | connLost
  | otherErr
deriving DecidableEq, Repr

/-- Environment of `start_resident_mode`. -/
structure StartEnv where
  init : InitEnv
  firstOpen : Except Unit Unit
  loadStep : Nat → LoadStep
  reopen : Nat → Except Unit Unit
  probe : ProbeEnv

/-- Observable effects of one `start_resident_mode` run: browser launch
attempts, successful `browser.get` tab opens, and whether the page-load
loop reached `"complete"`. -/
structure StartEff where
  launches : Nat
  tabOpens : Nat
  pageLoaded : Bool
deriving DecidableEq, Repr

/-- The `for retry in range(15)` page-load wait loop of
`start_resident_mode`: break with success on `"complete"`; on a lost
connection re-create the tab (a failed re-creation is logged and the old
handle kept); on any other error just retry. -/
def loadLoop (stepAt : Nat → LoadStep) (reopen : Nat → Except Unit Unit)
    (i fuel : Nat) (tab : Option Unit) (opens : Nat) :
    Bool × Option Unit × Nat :=
  match fuel with
  | 0 => (false, tab, opens)
  | Nat.succ fuel =>
    match stepAt i with
    | .readyState s =>
      if s == "complete" then (true, tab, opens)
      else loadLoop stepAt reopen (i + 1) fuel tab opens
    | .connLost =>
      match reopen i with
      | .ok () => loadLoop stepAt reopen (i + 1) fuel (some ()) (opens + 1)
      | .error () => loadLoop stepAt reopen (i + 1) fuel tab opens
    | .otherErr => loadLoop stepAt reopen (i + 1) fuel tab opens

/-- `start_resident_mode` from the source: warn-and-return when already
running; ensure the browser (failure propagates); assign
`resident_project_id` and open the resident tab; run the page-load wait;
on load failure log and return; otherwise run the readiness probe,
assign `_recaptcha_ready`, and set `_running` only when the probe
reported ready. -/
def start_resident_mode (st : SState) (env : StartEnv) (pid : String) :
    Except Unit Unit × SState × StartEff :=
  if st._running then (.ok (), st, ⟨0, 0, false⟩)
  else
    match initBrowser st env.init with
    | (.error (), st1, n) => (.error (), st1, ⟨n, 0, false⟩)
    | (.ok (), st1, n) =>
      let st2 := { st1 with resident_project_id := some pid }
      match env.firstOpen with
      | .error () => (.error (), st2, ⟨n, 0, false⟩)
      | .ok () =>
        let st3 := { st2 with resident_tab := some () }
        let load := loadLoop env.loadStep env.reopen 0 15 (some ()) 1
        let st4 := { st3 with resident_tab := load.2.1 }
        if load.1 then
          match waitForRecaptcha env.probe with
          | (.error (), _) => (.error (), st4, ⟨n, load.2.2, true⟩)
          | (.ok r, _) =>
            let st5 := { st4 with _recaptcha_ready := r }
            if r then (.ok (), { st5 with _running := true }, ⟨n, load.2.2, true⟩)
            else (.ok (), st5, ⟨n, load.2.2, true⟩)
        else (.ok (), st4, ⟨n, load.2.2, false⟩)

/-- The instance attribute names assigned in `__init__` of
`BrowserCaptchaService` (source lines 29–41). -/
def initAttrs : List String :=
  ["headless", "browser", "_initialized", "website_key", "db", "user_data_dir",
   "resident_project_id", "resident_tab", "_running", "_recaptcha_ready"]

/-- Every instance attribute name assigned anywhere in the class body:
`__init__` plus the assignments in `initialize` (`browser`,
`_initialized`), `start_resident_mode` / `stop_resident_mode`
(`resident_project_id`, `resident_tab`, `_recaptcha_ready`, `_running`)
and `close` (`browser`, `_initialized`). -/
def classAssignedAttrs : List String :=
  initAttrs ++
  ["browser", "_initialized", "resident_project_id", "resident_tab",
   "_recaptcha_ready", "_running"]

/-- `get_queue_size` from the source: read `self.token_queue` and return
its size.  Reading an attribute absent from the instance raises
`AttributeError`, modelled as `.error ()`; `attrs` is the set of
attributes present on the instance. -/
def get_queue_size (attrs : List String) : Except Unit Nat :=
  if "token_queue" ∈ attrs then .ok 0 else .error ()

/-! ### Concrete instances used to exercise the model -/

/-- The state of a freshly constructed service (`__init__` defaults). -/
def freshState : SState := ⟨false, false, none, none, false, false⟩

/-- A start environment whose page never reaches the `"complete"` ready
state, so the page-load wait exhausts its 15 attempts. -/
def startEnvStuck : StartEnv :=
  ⟨⟨.ok false, .ok ()⟩, .ok (), fun _ => .readyState "loading", fun _ => .ok (),
   ⟨fun _ => .ok false, .ok ()⟩⟩

/-- A start environment that loads on the first attempt and whose
readiness probe reports the library present at once. -/
def startEnvQuick : StartEnv :=
  ⟨⟨.ok false, .ok ()⟩, .ok (), fun _ => .readyState "complete", fun _ => .ok (),
   ⟨fun _ => .ok true, .ok ()⟩⟩

/-- A legacy environment whose readiness probe raises on its first
check, exercising the exception-to-null conversion. -/
def legacyEnvProbeRaise : LegacyEnv :=
  ⟨⟨.ok false, .ok ()⟩, .ok (), .ok (), fun _ => .ok "complete",
   ⟨fun _ => .error (), .ok ()⟩, ⟨.ok (), fun _ => .ok none, fun _ => .ok none⟩⟩

/-! ### Helper lemmas -/

theorem doLaunch_keeps_resident (s : SState) (l : Except Unit Unit) :
    ((doLaunch s l).2.1)._running = s._running ∧
    ((doLaunch s l).2.1).resident_project_id = s.resident_project_id ∧
    ((doLaunch s l).2.1).resident_tab = s.resident_tab ∧
    ((doLaunch s l).2.1)._recaptcha_ready = s._recaptcha_ready := by
  rcases l with u | u <;> simp [doLaunch]

theorem initBrowser_keeps_resident (st : SState) (env : InitEnv) :
    ((initBrowser st env).2.1)._running = st._running ∧
    ((initBrowser st env).2.1).resident_project_id = st.resident_project_id ∧
    ((initBrowser st env).2.1).resident_tab = st.resident_tab ∧
    ((initBrowser st env).2.1)._recaptcha_ready = st._recaptcha_ready := by
  unfold initBrowser
  split
  · rcases h : env.stoppedCheck with u | b
    · simpa using doLaunch_keeps_resident { st with _initialized := false } env.launch
    · rcases b with _ | _
      · simp
      · simpa using doLaunch_keeps_resident { st with _initialized := false } env.launch
  · exact doLaunch_keeps_resident st env.launch

theorem legacyAfterInit_state (st1 : SState) (n : Nat) (env : LegacyEnv) :
    (legacyAfterInit st1 n env).2.1 = st1 := by
  unfold legacyAfterInit
  repeat' split
  all_goals rfl

theorem legacyAfterInit_eff (st1 : SState) (n : Nat) (env : LegacyEnv) :
    (legacyAfterInit st1 n env).2.2.tabCloses = (legacyAfterInit st1 n env).2.2.tabOpens ∧
    (legacyAfterInit st1 n env).2.2.browserStops = 0 := by
  unfold legacyAfterInit
  repeat' split
  all_goals simp

theorem legacyAfterInit_no_raise (st1 : SState) (n : Nat) (env : LegacyEnv) :
    ∃ o, (legacyAfterInit st1 n env).1 = .ok o := by
  unfold legacyAfterInit
  repeat' split
  all_goals exact ⟨_, rfl⟩

theorem legacyAfterInit_null_of_warmup_raise (st1 : SState) (n : Nat)
    (env : LegacyEnv) (h : env.warmup = .error ()) :
    (legacyAfterInit st1 n env).1 = .ok none := by
  unfold legacyAfterInit
  repeat' split
  all_goals simp_all

theorem legacyAfterInit_null_of_nav_raise (st1 : SState) (n : Nat)
    (env : LegacyEnv) (h : navLoop env.navStep 0 10 = .error ()) :
    (legacyAfterInit st1 n env).1 = .ok none := by
  unfold legacyAfterInit
  repeat' split
  all_goals simp_all

theorem legacyAfterInit_null_of_probe_raise (st1 : SState) (n : Nat)
    (env : LegacyEnv) (h : (waitForRecaptcha env.probe).1 = .error ()) :
    (legacyAfterInit st1 n env).1 = .ok none := by
  unfold legacyAfterInit
  repeat' split
  all_goals simp_all

theorem legacyAfterInit_null_of_exec_raise (st1 : SState) (n : Nat)
    (env : LegacyEnv) (h : execOnTab env.exec = .error ()) :
    (legacyAfterInit st1 n env).1 = .ok none := by
  unfold legacyAfterInit
  repeat' split
  all_goals simp_all

theorem legacyAfterInit_nonempty (st1 : SState) (n : Nat) (env : LegacyEnv)
    (s : String) (h : (legacyAfterInit st1 n env).1 = .ok (some s)) : s ≠ "" := by
  unfold legacyAfterInit at h
  repeat' split at h
  all_goals simp_all [truthyStr]

theorem legacy_keeps_resident (st : SState) (env : LegacyEnv) :
    ((_get_token_legacy st env).2.1)._running = st._running ∧
    ((_get_token_legacy st env).2.1).resident_project_id = st.resident_project_id ∧
    ((_get_token_legacy st env).2.1).resident_tab = st.resident_tab ∧
    ((_get_token_legacy st env).2.1)._recaptcha_ready = st._recaptcha_ready := by
  unfold _get_token_legacy
  split
  · simp [legacyAfterInit_state]
  · rcases h : initBrowser st env.init with ⟨r, st1, n⟩
    have hk := initBrowser_keeps_resident st env.init
    rw [h] at hk
    rcases r with u | u
    · simpa using hk
    · simpa [legacyAfterInit_state] using hk

theorem legacy_nonempty (st : SState) (env : LegacyEnv) (s : String)
    (h : (_get_token_legacy st env).1 = .ok (some s)) : s ≠ "" := by
  unfold _get_token_legacy at h
  split at h
  · exact legacyAfterInit_nonempty _ _ _ _ h
  · rcases hi : initBrowser st env.init with ⟨r, st1, n⟩
    rw [hi] at h
    rcases r with u | u
    · simp at h
    · exact legacyAfterInit_nonempty _ _ _ _ h

theorem probeLoop_all_false (check : Nat → Except Unit Bool)
    (h : ∀ j, check j = .ok false) :
    ∀ fuel i polls, probeLoop check i fuel polls = (.ok false, polls + fuel) := by
  intro fuel
  induction fuel with
  | zero => intro i polls; simp [probeLoop]
  | succ fuel ih =>
    intro i polls
    simp only [probeLoop, h i, ih, Nat.add_succ, Nat.succ_add]

theorem start_noop_of_running (st : SState) (env : StartEnv) (pid : String)
    (h : st._running = true) :
    start_resident_mode st env pid = (.ok (), st, ⟨0, 0, false⟩) := by
  simp [start_resident_mode, h]

/-! ### Claim theorems -/

/-- C1: for every target identifier, `get_token` returns either a
non-empty token string or null; it never returns an empty string, on the
resident path or on the legacy path. -/
theorem get_token_never_empty (st : SState) (env : TokenEnv) (pid s : String)
    (h : (get_token st env pid).1 = .ok (some s)) : s ≠ "" := by
  unfold get_token at h
  dsimp only at h
  split at h
  · split at h
    · split at h
      · simp at h
      · rename_i tok htok
        split at h
        · rename_i htru
          simp only [Except.ok.injEq] at h
          subst h
          simp_all [truthyStr]
        · exact legacy_nonempty st env.legacy s h
    · exact legacy_nonempty st env.legacy s h
  · exact legacy_nonempty st env.legacy s h

/-- Witness for C1: a concrete run on the legacy path that returns the
non-empty token `"tok"`. -/
theorem get_token_never_empty_witness :
    (get_token ⟨false, false, none, none, false, false⟩
      ⟨⟨.ok (), fun _ => .ok none, fun _ => .ok none⟩,
       ⟨⟨.ok false, .ok ()⟩, .ok (), .ok (), fun _ => .ok "complete",
        ⟨fun _ => .ok true, .ok ()⟩,
        ⟨.ok (), fun _ => .ok (some "tok"), fun _ => .ok none⟩⟩⟩ "p").1 =
      .ok (some "tok") ∧ "tok" ≠ "" := by
  refine ⟨rfl, ?_⟩
  exact get_token_never_empty ⟨false, false, none, none, false, false⟩
    ⟨⟨.ok (), fun _ => .ok none, fun _ => .ok none⟩,
     ⟨⟨.ok false, .ok ()⟩, .ok (), .ok (), fun _ => .ok "complete",
      ⟨fun _ => .ok true, .ok ()⟩,
      ⟨.ok (), fun _ => .ok (some "tok"), fun _ => .ok none⟩⟩⟩ "p" "tok" rfl

/-- C2: if the resident channel is running, bound to target T, marked
challenge-ready with a present tab, and the executor on the resident tab
returns a (truthy) token, then `get_token T` returns that exact token and
the legacy path is never invoked. -/
theorem resident_token_no_legacy (st : SState) (env : TokenEnv) (pid t : String)
    (h1 : st._running = true) (h2 : st.resident_project_id = some pid)
    (h3 : st._recaptcha_ready = true) (h4 : st.resident_tab = some ())
    (h5 : execOnTab env.resExec = .ok (some t)) (h6 : t ≠ "") :
    (get_token st env pid).1 = .ok (some t) ∧
    (get_token st env pid).2.2.legacyCalls = 0 ∧
    (get_token st env pid).2.2.residentExecCalls = 1 := by
  unfold get_token
  simp [h1, h2, h3, h4, h5, truthyStr, h6]

/-- Witness for C2: a concrete resident-bound state whose executor yields
`"resTok"`; `get_token` returns it with zero legacy calls. -/
theorem resident_token_no_legacy_witness :
    (get_token ⟨true, true, some "p", some (), true, true⟩
      ⟨⟨.ok (), fun _ => .ok (some "resTok"), fun _ => .ok none⟩,
       ⟨⟨.ok false, .ok ()⟩, .ok (), .ok (), fun _ => .ok "complete",
        ⟨fun _ => .ok true, .ok ()⟩,
        ⟨.ok (), fun _ => .ok none, fun _ => .ok none⟩⟩⟩ "p").1 =
      .ok (some "resTok") ∧
    (get_token ⟨true, true, some "p", some (), true, true⟩
      ⟨⟨.ok (), fun _ => .ok (some "resTok"), fun _ => .ok none⟩,
       ⟨⟨.ok false, .ok ()⟩, .ok (), .ok (), fun _ => .ok "complete",
        ⟨fun _ => .ok true, .ok ()⟩,
        ⟨.ok (), fun _ => .ok none, fun _ => .ok none⟩⟩⟩ "p").2.2.legacyCalls = 0 := by
  have h := resident_token_no_legacy ⟨true, true, some "p", some (), true, true⟩
    ⟨⟨.ok (), fun _ => .ok (some "resTok"), fun _ => .ok none⟩,
     ⟨⟨.ok false, .ok ()⟩, .ok (), .ok (), fun _ => .ok "complete",
      ⟨fun _ => .ok true, .ok ()⟩,
      ⟨.ok (), fun _ => .ok none, fun _ => .ok none⟩⟩⟩ "p" "resTok"
    rfl rfl rfl rfl rfl (by decide)
  exact ⟨h.1, h.2.1⟩

/-- C3: if the resident channel is running and bound to T but the executor
on the resident tab returns a falsy value (null or empty), `get_token T`
invokes the legacy path exactly once and returns the legacy result. -/
theorem resident_null_falls_back (st : SState) (env : TokenEnv) (pid : String)
    (tok : Option String)
    (h1 : st._running = true) (h2 : st.resident_project_id = some pid)
    (h3 : st._recaptcha_ready = true) (h4 : st.resident_tab = some ())
    (h5 : execOnTab env.resExec = .ok tok) (h6 : truthyStr tok = false) :
    (get_token st env pid).1 = (_get_token_legacy st env.legacy).1 ∧
    (get_token st env pid).2.2.legacyCalls = 1 := by
  unfold get_token
  simp [h1, h2, h3, h4, h5, h6]

/-- Witness for C3: a concrete resident-bound state whose executor yields
null on every poll; `get_token` returns the legacy result with exactly one
legacy call. -/
theorem resident_null_falls_back_witness :
    (get_token ⟨true, true, some "p", some (), true, true⟩
      ⟨⟨.ok (), fun _ => .ok none, fun _ => .ok none⟩,
       ⟨⟨.ok false, .ok ()⟩, .ok (), .ok (), fun _ => .ok "complete",
        ⟨fun _ => .ok true, .ok ()⟩,
        ⟨.ok (), fun _ => .ok (some "legacyTok"), fun _ => .ok none⟩⟩⟩ "p").1 =
      (_get_token_legacy ⟨true, true, some "p", some (), true, true⟩
       ⟨⟨.ok false, .ok ()⟩, .ok (), .ok (), fun _ => .ok "complete",
        ⟨fun _ => .ok true, .ok ()⟩,
        ⟨.ok (), fun _ => .ok (some "legacyTok"), fun _ => .ok none⟩⟩).1 ∧
    (get_token ⟨true, true, some "p", some (), true, true⟩
      ⟨⟨.ok (), fun _ => .ok none, fun _ => .ok none⟩,
       ⟨⟨.ok false, .ok ()⟩, .ok (), .ok (), fun _ => .ok "complete",
        ⟨fun _ => .ok true, .ok ()⟩,
        ⟨.ok (), fun _ => .ok (some "legacyTok"), fun _ => .ok none⟩⟩⟩ "p").2.2.legacyCalls = 1 :=
  resident_null_falls_back ⟨true, true, some "p", some (), true, true⟩
    ⟨⟨.ok (), fun _ => .ok none, fun _ => .ok none⟩,
     ⟨⟨.ok false, .ok ()⟩, .ok (), .ok (), fun _ => .ok "complete",
      ⟨fun _ => .ok true, .ok ()⟩,
      ⟨.ok (), fun _ => .ok (some "legacyTok"), fun _ => .ok none⟩⟩⟩ "p" none
    rfl rfl rfl rfl rfl rfl

/-- C4: for every target U different from the resident channel's bound
target, or when the channel is not running, `get_token U` takes the
legacy per-request path directly and never executes on the resident tab. -/
theorem other_target_goes_legacy (st : SState) (env : TokenEnv) (pid : String)
    (h : st._running = false ∨ st.resident_project_id ≠ some pid) :
    (get_token st env pid).1 = (_get_token_legacy st env.legacy).1 ∧
    (get_token st env pid).2.2.legacyCalls = 1 ∧
    (get_token st env pid).2.2.residentExecCalls = 0 := by
  unfold get_token
  rcases h with h | h
  · simp [h]
  · simp [h]

/-- Witness for C4: a running channel bound to `"p"` queried for `"q"`
goes straight to the legacy path, with no resident execution. -/
theorem other_target_goes_legacy_witness :
    (get_token ⟨true, true, some "p", some (), true, true⟩
      ⟨⟨.ok (), fun _ => .ok (some "resTok2"), fun _ => .ok none⟩,
       ⟨⟨.ok false, .ok ()⟩, .ok (), .ok (), fun _ => .ok "complete",
        ⟨fun _ => .ok true, .ok ()⟩,
        ⟨.ok (), fun _ => .ok none, fun _ => .ok none⟩⟩⟩ "q").2.2.legacyCalls = 1 ∧
    (get_token ⟨true, true, some "p", some (), true, true⟩
      ⟨⟨.ok (), fun _ => .ok (some "resTok2"), fun _ => .ok none⟩,
       ⟨⟨.ok false, .ok ()⟩, .ok (), .ok (), fun _ => .ok "complete",
        ⟨fun _ => .ok true, .ok ()⟩,
        ⟨.ok (), fun _ => .ok none, fun _ => .ok none⟩⟩⟩ "q").2.2.residentExecCalls = 0 :=
  (other_target_goes_legacy ⟨true, true, some "p", some (), true, true⟩
    ⟨⟨.ok (), fun _ => .ok (some "resTok2"), fun _ => .ok none⟩,
     ⟨⟨.ok false, .ok ()⟩, .ok (), .ok (), fun _ => .ok "complete",
      ⟨fun _ => .ok true, .ok ()⟩,
      ⟨.ok (), fun _ => .ok none, fun _ => .ok none⟩⟩⟩ "q"
    (Or.inr (by decide))).2

/-- C10: for every project identifier, `get_token` leaves the
resident-channel state fields (`_running`, `resident_project_id`,
`resident_tab`, `_recaptcha_ready`) unchanged, whichever path it took and
whatever it returned. -/
theorem get_token_frame (st : SState) (env : TokenEnv) (pid : String) :
    ((get_token st env pid).2.1)._running = st._running ∧
    ((get_token st env pid).2.1).resident_project_id = st.resident_project_id ∧
    ((get_token st env pid).2.1).resident_tab = st.resident_tab ∧
    ((get_token st env pid).2.1)._recaptcha_ready = st._recaptcha_ready := by
  have hl := legacy_keeps_resident st env.legacy
  unfold get_token
  dsimp only
  split
  · split
    · split
      · simp
      · split
        · simp
        · simpa using hl
    · simpa using hl
  · simpa using hl

/-- C5 counterexample: starting from a fresh instance with an environment
whose page never finishes loading, `start_resident_mode` fails (the page
never loads and `_running` stays false) yet the stored target identifier
has changed from `none` to `some "p"`, because the source assigns
`self.resident_project_id = project_id` before the page-load wait. -/
theorem start_failure_changes_target :
    ((start_resident_mode freshState startEnvStuck "p").2.1)._running = false ∧
    (start_resident_mode freshState startEnvStuck "p").2.2.pageLoaded = false ∧
    freshState.resident_project_id = none ∧
    ((start_resident_mode freshState startEnvStuck "p").2.1).resident_project_id =
      some "p" := by
  refine ⟨rfl, rfl, rfl, rfl⟩

/-- C5 (amended): `start_resident_mode` sets `_running = true` only after
both the page-load wait and the challenge-readiness probe succeed; on any
failure `_running` is left unchanged (false), but the stored target
identifier is assigned the new project id before the page-load wait, so
it is changed even when the start fails (provided the browser launch
succeeded). -/
theorem start_sets_running_only_on_success (st : SState) (env : StartEnv)
    (pid : String) (h1 : st._running = false)
    (h2 : (initBrowser st env.init).1 = .ok ()) :
    ((start_resident_mode st env pid).2.1).resident_project_id = some pid ∧
    (((start_resident_mode st env pid).2.1)._running = true →
      (start_resident_mode st env pid).2.2.pageLoaded = true ∧
      (waitForRecaptcha env.probe).1 = .ok true) := by
  have hkeep := initBrowser_keeps_resident st env.init
  unfold start_resident_mode
  simp only [h1, Bool.false_eq_true, if_false]
  rcases hi : initBrowser st env.init with ⟨ri, sti, ni⟩
  rw [hi] at h2 hkeep
  rcases ri with u | u
  · simp at h2
  · cases u
    dsimp only
    rcases ho : env.firstOpen with u | u
    · cases u
      refine ⟨by simp, fun hrun => ?_⟩
      simp_all
    · cases u
      dsimp only
      rcases hl : loadLoop env.loadStep env.reopen 0 15 (some ()) 1 with
        ⟨loaded, tab, opens⟩
      cases loaded
      · refine ⟨by simp, fun hrun => ?_⟩
        simp_all
      · dsimp only
        rcases hw : waitForRecaptcha env.probe with ⟨wr, weff⟩
        rcases wr with u | b
        · cases u
          refine ⟨by simp, fun hrun => ?_⟩
          simp_all
        · cases b
          · refine ⟨by simp, fun hrun => ?_⟩
            simp_all
          · exact ⟨by simp, fun _ => ⟨by simp, by simp⟩⟩

/-- Witness for C5 (amended): a fresh instance with a quick-loading
environment; after the start the stored target is `"p"` and the probe
reported ready. -/
theorem start_sets_running_only_on_success_witness :
    ((start_resident_mode freshState startEnvQuick "p").2.1).resident_project_id =
      some "p" ∧
    (waitForRecaptcha startEnvQuick.probe).1 = .ok true := by
  refine ⟨(start_sets_running_only_on_success freshState startEnvQuick "p" rfl rfl).1, ?_⟩
  exact ((start_sets_running_only_on_success freshState startEnvQuick "p" rfl rfl).2
    rfl).2

/-- C6: the legacy acquirer closes the tab exactly when it opened one, on
success and on exception from the warm-up, navigation wait, readiness
probe, or executor; when the browser-ensure step did not raise, the
result is always a normal return, and an exception raised by the warm-up,
the navigation wait, the readiness probe, or the executor is caught and
converted into a null result; and no path stops the browser process. -/
theorem legacy_always_closes (st : SState) (env : LegacyEnv) :
    (_get_token_legacy st env).2.2.tabCloses =
      (_get_token_legacy st env).2.2.tabOpens ∧
    (_get_token_legacy st env).2.2.browserStops = 0 ∧
    ((st._initialized && st.hasBrowser) = true ∨
      (initBrowser st env.init).1 = .ok () →
      (∃ o, (_get_token_legacy st env).1 = .ok o) ∧
      (env.warmup = .error () → (_get_token_legacy st env).1 = .ok none) ∧
      (navLoop env.navStep 0 10 = .error () →
        (_get_token_legacy st env).1 = .ok none) ∧
      ((waitForRecaptcha env.probe).1 = .error () →
        (_get_token_legacy st env).1 = .ok none) ∧
      (execOnTab env.exec = .error () →
        (_get_token_legacy st env).1 = .ok none)) := by
  unfold _get_token_legacy
  split
  · exact ⟨(legacyAfterInit_eff st 0 env).1, (legacyAfterInit_eff st 0 env).2,
      fun _ => ⟨legacyAfterInit_no_raise st 0 env,
        fun h => legacyAfterInit_null_of_warmup_raise st 0 env h,
        fun h => legacyAfterInit_null_of_nav_raise st 0 env h,
        fun h => legacyAfterInit_null_of_probe_raise st 0 env h,
        fun h => legacyAfterInit_null_of_exec_raise st 0 env h⟩⟩
  · rename_i hcond
    rcases hi : initBrowser st env.init with ⟨ri, sti, ni⟩
    rcases ri with u | u
    · cases u
      refine ⟨rfl, rfl, fun h => ?_⟩
      rcases h with h | h
      · exact absurd h hcond
      · simp at h
    · cases u
      exact ⟨(legacyAfterInit_eff sti ni env).1, (legacyAfterInit_eff sti ni env).2,
        fun _ => ⟨legacyAfterInit_no_raise sti ni env,
          fun h => legacyAfterInit_null_of_warmup_raise sti ni env h,
          fun h => legacyAfterInit_null_of_nav_raise sti ni env h,
          fun h => legacyAfterInit_null_of_probe_raise sti ni env h,
          fun h => legacyAfterInit_null_of_exec_raise sti ni env h⟩⟩

/-- Witness for C6: a fresh instance whose readiness probe raises
mid-flow; the tab open and close counts agree, the browser is not
stopped, and the caught exception is converted into a null result. -/
theorem legacy_always_closes_witness :
    (_get_token_legacy freshState legacyEnvProbeRaise).2.2.tabCloses =
      (_get_token_legacy freshState legacyEnvProbeRaise).2.2.tabOpens ∧
    (_get_token_legacy freshState legacyEnvProbeRaise).2.2.browserStops = 0 ∧
    (_get_token_legacy freshState legacyEnvProbeRaise).1 = .ok none :=
  ⟨(legacy_always_closes freshState legacyEnvProbeRaise).1,
   (legacy_always_closes freshState legacyEnvProbeRaise).2.1,
   ((legacy_always_closes freshState legacyEnvProbeRaise).2.2
     (Or.inr rfl)).2.2.2.1 rfl⟩

/-- C7: a page whose first readiness check reports the challenge library
present gets zero script injections and an immediate ready result; a page
on which the readiness check is never true gets exactly one injection
attempt and at most 20 subsequent polls before the probe returns
not-ready. -/
theorem probe_injection_poll_counts :
    (∀ env : ProbeEnv, env.check 0 = .ok true →
      waitForRecaptcha env = (.ok true, ⟨0, 0⟩)) ∧
    (∀ env : ProbeEnv, (∀ i, env.check i = .ok false) → env.inj = .ok () →
      (waitForRecaptcha env).1 = .ok false ∧
      (waitForRecaptcha env).2.injections = 1 ∧
      (waitForRecaptcha env).2.polls ≤ 20) := by
  constructor
  · intro env h
    simp [waitForRecaptcha, h]
  · intro env h hinj
    have hp := probeLoop_all_false env.check h 20 1 0
    simp [waitForRecaptcha, h 0, hinj, hp]

/-- Witness for C7: an always-ready page probes with no injection; a
never-ready page polls within the budget of 20. -/
theorem probe_injection_poll_counts_witness :
    waitForRecaptcha ⟨fun _ => .ok true, .ok ()⟩ = (.ok true, ⟨0, 0⟩) ∧
    (waitForRecaptcha ⟨fun _ => .ok false, .ok ()⟩).2.injections = 1 ∧
    (waitForRecaptcha ⟨fun _ => .ok false, .ok ()⟩).2.polls ≤ 20 :=
  ⟨probe_injection_poll_counts.1 ⟨fun _ => .ok true, .ok ()⟩ rfl,
   (probe_injection_poll_counts.2 ⟨fun _ => .ok false, .ok ()⟩
     (fun _ => rfl) rfl).2⟩

/-- C8: a second `start_resident_mode` without an intervening stop (the
first call left `_running` true) is a no-op: it launches no browser,
opens no page, changes no state, and returns normally, whatever its
environment and argument. -/
theorem start_twice_noop (st : SState) (e1 e2 : StartEnv) (p1 p2 : String)
    (h : ((start_resident_mode st e1 p1).2.1)._running = true) :
    start_resident_mode ((start_resident_mode st e1 p1).2.1) e2 p2 =
      (.ok (), (start_resident_mode st e1 p1).2.1, ⟨0, 0, false⟩) :=
  start_noop_of_running _ e2 p2 h

/-- Witness for C8: after a successful quick start from a fresh instance,
a second start (with a page that would never load) does nothing. -/
theorem start_twice_noop_witness :
    start_resident_mode ((start_resident_mode freshState startEnvQuick "p").2.1)
      startEnvStuck "q" =
      (.ok (), (start_resident_mode freshState startEnvQuick "p").2.1,
        ⟨0, 0, false⟩) :=
  start_twice_noop freshState startEnvQuick startEnvStuck "p" "q" rfl

/-- C9: `get_queue_size` reads `self.token_queue`, but no method of the
class ever assigns that attribute, so on every instance whose attributes
all come from the class body the read raises `AttributeError`. -/
theorem get_queue_size_raises (attrs : List String)
    (h : ∀ a ∈ attrs, a ∈ classAssignedAttrs) :
    get_queue_size attrs = .error () := by
  have h3 : "token_queue" ∉ attrs := fun hmem =>
    (by decide : "token_queue" ∉ classAssignedAttrs) (h _ hmem)
  simp [get_queue_size, h3]

/-- Witness for C9: an instance carrying exactly the `__init__`
attributes raises. -/
theorem get_queue_size_raises_witness :
    (∀ a ∈ initAttrs, a ∈ classAssignedAttrs) ∧
    get_queue_size initAttrs = .error () :=
  ⟨by decide, get_queue_size_raises initAttrs (by decide)⟩

end Flow2Api
